import Mathlib

/-!
Verification of the peripheral command/notification protocol layer of
`pylgbst/peripherals.py` (Move Hub BLE driver).

The code is shallowly embedded: byte strings become `List Nat`, Python floats
become exact rationals, raising an exception becomes `Except.error`, and the
single transport write performed by a command becomes the returned packet.
Helpers and constants that live in modules of the package outside
`peripherals.py` (`int2byte`, `get_byte`, `pylgbst.constants`) are modelled
from the spec and are marked as such in their doc comments.
-/

namespace Pylgbst

/-- Byte sequences (Python `bytes` / `str` command buffers) are modelled as
lists of natural numbers, each intended to be < 256. -/
abbrev Bytes := List Nat

/-- Errors raised by the code, named after the spec's error taxonomy:
`invalidArgument` is the code's `ValueError`, `notSubscribed` is the `KeyError`
raised by `set.remove` of an absent element, and `structError` is the
`struct.error` raised by `struct.pack` on an out-of-range value. -/
inductive Err where
  | invalidArgument
  | notSubscribed
  | structError
deriving DecidableEq

/-- Python 3 `round` on an exact rational: round half to even. -/
def pyRound (q : ℚ) : ℤ :=
  if q - ⌊q⌋ < 1/2 then ⌊q⌋
  else if 1/2 < q - ⌊q⌋ then ⌊q⌋ + 1
  else if Even ⌊q⌋ then ⌊q⌋ else ⌊q⌋ + 1

/-- Python `int()` on an exact rational: truncation toward zero. -/
def pyInt (q : ℚ) : ℤ := if q < 0 then ⌈q⌉ else ⌊q⌋

/-- Modelled from the spec: `int2byte` of the missing package root module packs
a small integer into a single byte. -/
def int2byte (n : Nat) : Bytes := [n % 256]

/-- Modelled from the spec: `get_byte(data, i)` of the missing package root
module reads the byte at offset `i` of a notification buffer ("Byte at offset 4
is the primary reading; offset 5 (FULL mode only) is a secondary reading"). -/
def get_byte (data : Bytes) (i : Nat) : Nat := data.getD i 0

/-- Modelled from the spec: the protocol version byte from the missing
`pylgbst.constants` module; its value appears as the second byte of the
pre-built subscribe packets kept at the bottom of the source file. -/
def PACKET_VER : Nat := 0x00

/-- Modelled from the spec: the "set port value" message type constant from the
missing `pylgbst.constants` module. -/
def MSG_SET_PORT_VAL : Nat := 0x81

/-- Modelled from the spec: the "sensor subscribe" message type constant from
the missing `pylgbst.constants` module; it appears as the third byte of the
pre-built subscribe packets kept at the bottom of the source file. -/
def MSG_SENSOR_SUBSCRIBE : Nat := 0x41

/-- Modelled from the spec: port code for port A (see `LISTEN_ENCODER_ON_A`). -/
def PORT_A : Nat := 0x37

/-- Modelled from the spec: port code for port B (see `LISTEN_ENCODER_ON_B`). -/
def PORT_B : Nat := 0x38

/-- Modelled from the spec: port code for the combined port AB. -/
def PORT_AB : Nat := 0x39

/-- Modelled from the spec: port code for port C (see `LISTEN_ENCODER_ON_C`). -/
def PORT_C : Nat := 0x01

/-- Modelled from the spec: port code for port D (see `LISTEN_ENCODER_ON_D`). -/
def PORT_D : Nat := 0x02

/-- `Peripheral._write_to_hub`: prepend the version byte, message type and port
to the parameters, then prepend the length byte `len(cmd) + 1`, and write the
result to the hub connection. The model returns the packet written. -/
def write_to_hub (port msg_type : Nat) (params : Bytes) : Bytes :=
  let cmd := int2byte PACKET_VER ++ int2byte msg_type ++ int2byte port ++ params
  int2byte (cmd.length + 1) ++ cmd

/-- `Peripheral._set_port_val`. -/
def set_port_val (port : Nat) (value : Bytes) : Bytes :=
  write_to_hub port MSG_SET_PORT_VAL value

/-- `Peripheral._subscribe_on_port`. -/
def subscribe_on_port (port : Nat) (params : Bytes) : Bytes :=
  write_to_hub port MSG_SENSOR_SUBSCRIBE params

/-- `Peripheral._notify_subscribers`: call each subscriber of the set with the
decoded values. The set is modelled as a list snapshot; `behaviour s args` is
the effect of calling subscriber `s` (which may raise). Returns the list of
subscribers actually invoked and the first error raised: the Python `for` loop
lets an exception from a subscriber propagate, aborting the iteration. -/
def notify_subscribers (behaviour : Nat → List Int → Except Err Unit)
    (subs : List Nat) (args : List Int) : List Nat × Option Err :=
  match subs with
  | [] => ([], none)
  | s :: rest =>
    match behaviour s args with
    | .ok _ =>
      let r := notify_subscribers behaviour rest args
      (s :: r.1, r.2)
    | .error e => ([s], some e)

/-- `EncodedMotor.TRAILER`. -/
def TRAILER : Bytes := [0x64, 0x7f, 0x03]

/-- `EncodedMotor.MOVEMENT_TYPE`. -/
def MOVEMENT_TYPE : Bytes := [0x11]

/-- `EncodedMotor.TIMED_SINGLE`. -/
def TIMED_SINGLE : Bytes := [0x09]

/-- `EncodedMotor.TIMED_GROUP`. -/
def TIMED_GROUP : Bytes := [0x0A]

/-- `EncodedMotor.ANGLED_SINGLE`. -/
def ANGLED_SINGLE : Bytes := [0x0B]

/-- `EncodedMotor.ANGLED_GROUP`. -/
def ANGLED_GROUP : Bytes := [0x0C]

/-- `EncodedMotor._speed_abs`: reject a relative speed outside [-1, 1], else
round it to integer percent and wrap a negative value by adding 255. -/
def speed_abs (relative : ℚ) : Except Err ℤ :=
  if relative < -1 ∨ relative > 1 then .error Err.invalidArgument
  else
    let absolute := pyRound (relative * 100)
    .ok (if absolute < 0 then absolute + 255 else absolute)

/-- `struct.pack` with format `<H`: a 2-byte little-endian unsigned integer;
`struct.error` when the value does not fit. -/
def pack_u16le (n : ℤ) : Except Err Bytes :=
  if n < 0 ∨ 65536 ≤ n then .error Err.structError
  else .ok [n.toNat % 256, n.toNat / 256]

/-- `struct.pack` with format `<I`: a 4-byte little-endian unsigned integer;
`struct.error` when the value does not fit. -/
def pack_u32le (n : ℤ) : Except Err Bytes :=
  if n < 0 ∨ 4294967296 ≤ n then .error Err.structError
  else .ok [n.toNat % 256, n.toNat / 256 % 256, n.toNat / 65536 % 256, n.toNat / 16777216]

/-- Little-endian decode of the two bytes at offsets `i`, `i+1` of a packet. -/
def decode_u16le (b : Bytes) (i : Nat) : Nat :=
  b.getD i 0 + 256 * b.getD (i + 1) 0

/-- `EncodedMotor._wrap_and_write`: prepend the movement type, append the
primary speed byte, a secondary speed byte only on the combined port AB, then
the trailer, and send as a "set port value" command. -/
def wrap_and_write (port : Nat) (command : Bytes) (speed_primary speed_secondary : ℚ) :
    Except Err Bytes := do
  let command := MOVEMENT_TYPE ++ command
  let a ← speed_abs speed_primary
  let command := command ++ int2byte a.toNat
  let command ←
    if port = PORT_AB then do
      let b ← speed_abs speed_secondary
      pure (command ++ int2byte b.toNat)
    else
      pure command
  pure (set_port_val port (command ++ TRAILER))

/-- `EncodedMotor.timed`: build the timed payload (subtype by single vs AB
port, 2-byte little-endian millisecond duration, speed bytes, trailer) and
send it. The returned boolean records whether `time.sleep(seconds)` ran
(it does exactly when `async` is false). -/
def timed (port : Nat) (seconds : ℚ) (speed_primary : ℚ) (speed_secondary : Option ℚ)
    (async : Bool) : Except Err (Bytes × Bool) := do
  let ss := speed_secondary.getD speed_primary
  let command := if port = PORT_AB then TIMED_GROUP else TIMED_SINGLE
  let msec := pyInt (seconds * 1000)
  if 65536 ≤ msec then throw Err.invalidArgument
  let packed ← pack_u16le msec
  let pkt ← wrap_and_write port (command ++ packed) speed_primary ss
  pure (pkt, !async)

/-- `EncodedMotor.angled`: build the angled payload (subtype by single vs AB
port, 4-byte little-endian angle, speed bytes, trailer) and send it. -/
def angled (port : Nat) (angle : ℤ) (speed_primary : ℚ) (speed_secondary : Option ℚ) :
    Except Err Bytes := do
  let ss := speed_secondary.getD speed_primary
  let command := if port = PORT_AB then ANGLED_GROUP else ANGLED_SINGLE
  let packed ← pack_u32le angle
  wrap_and_write port (command ++ packed) speed_primary ss

/-- The four tilt sensor modes of the spec. -/
inductive TiltMode where
  | off
  | basic
  | twoaxis
  | full
deriving DecidableEq

/-- Modelled from the spec: the numeric values of the `TILT_SENSOR_MODE_*`
constants live in the missing `pylgbst.constants` module; the spec pins only
that the four modes are distinct, so arbitrary distinct bytes are used. -/
def modeByte : TiltMode → Nat
  | .off => 0
  | .basic => 1
  | .twoaxis => 2
  | .full => 3

/-- The mutable state of a `TiltSensor`: its current mode and its subscriber
set, modelled as a list of callback identities without duplicates. -/
structure TiltSensorState where
  mode : TiltMode
  subscribers : List Nat
deriving DecidableEq

/-- `TiltSensor.__init__`: a fresh sensor is in mode OFF with no subscribers. -/
def tiltSensorInit : TiltSensorState :=
  { mode := TiltMode.off, subscribers := [] }

/-- `TiltSensor._switch_mode`: set the mode and emit the mode-subscribe wire
command. Returns the new state and the packet written. -/
def switch_mode (port : Nat) (st : TiltSensorState) (mode : TiltMode) :
    TiltSensorState × Bytes :=
  ({ st with mode := mode },
   subscribe_on_port port (int2byte (modeByte mode) ++ [0x01, 0x00, 0x00, 0x00, 0x01]))

/-- `TiltSensor.subscribe`: reject a mode other than BASIC/2AXIS/FULL, else
switch mode and add the callback to the subscriber set. -/
def tilt_subscribe (port : Nat) (st : TiltSensorState) (callback : Nat) (mode : TiltMode) :
    Except Err (TiltSensorState × Bytes) :=
  if mode = TiltMode.basic ∨ mode = TiltMode.twoaxis ∨ mode = TiltMode.full then
    let r := switch_mode port st mode
    .ok ({ r.1 with subscribers :=
            if callback ∈ r.1.subscribers then r.1.subscribers
            else r.1.subscribers ++ [callback] }, r.2)
  else .error Err.invalidArgument

/-- `TiltSensor.unsubscribe`: remove the callback (KeyError, i.e.
`notSubscribed`, when absent); when the subscriber set becomes empty, switch
the mode to OFF, emitting the corresponding wire command. Returns the new
state and the packets written. -/
def unsubscribe (port : Nat) (st : TiltSensorState) (callback : Nat) :
    Except Err (TiltSensorState × List Bytes) :=
  if callback ∈ st.subscribers then
    let st1 : TiltSensorState := { st with subscribers := st.subscribers.erase callback }
    if st1.subscribers = [] then
      let r := switch_mode port st1 TiltMode.off
      .ok (r.1, [r.2])
    else
      .ok (st1, [])
  else .error Err.notSubscribed

/-- `TiltSensor._byte2deg`: signed-degree decode of a raw byte. -/
def byte2deg (val : Nat) : ℤ :=
  if val > 90 then (val : ℤ) - 256 else (val : ℤ)

/-- `TiltSensor.handle_notification`: dispatch on the current mode and return
the value tuple handed to `_notify_subscribers`, or `none` when the packet is
only logged and dropped. -/
def handle_notification (st : TiltSensorState) (data : Bytes) : Option (List ℤ) :=
  match st.mode with
  | TiltMode.basic => some [(get_byte data 4 : ℤ)]
  | TiltMode.full => some [byte2deg (get_byte data 4), byte2deg (get_byte data 5)]
  | TiltMode.twoaxis => some [(get_byte data 4 : ℤ)]
  | TiltMode.off => none

/-- The speed decoder named by the spec's round-trip property (not present in
the source): signed-byte decode of the wire byte, divided by 100. -/
def decodeSpeed (b : Nat) : ℚ :=
  (((if 128 ≤ b then (b : ℤ) - 256 else (b : ℤ)) : ℤ) : ℚ) / 100

instance {ε α : Type} [DecidableEq ε] [DecidableEq α] : DecidableEq (Except ε α) := fun a b =>
  match a, b with
  | .ok a, .ok b =>
    if h : a = b then .isTrue (by rw [h]) else .isFalse (by intro he; cases he; exact h rfl)
  | .error a, .error b =>
    if h : a = b then .isTrue (by rw [h]) else .isFalse (by intro he; cases he; exact h rfl)
  | .ok _, .error _ => .isFalse (by intro he; cases he)
  | .error _, .ok _ => .isFalse (by intro he; cases he)

/-! Helper lemmas about the Python rounding functions. -/

theorem pyRound_cases (q : ℚ) : pyRound q = ⌊q⌋ ∨ pyRound q = ⌊q⌋ + 1 := by
  unfold pyRound
  split
  · exact Or.inl rfl
  · split
    · exact Or.inr rfl
    · split
      · exact Or.inl rfl
      · exact Or.inr rfl

theorem le_pyRound (n : ℤ) (q : ℚ) (h : (n : ℚ) ≤ q) : n ≤ pyRound q := by
  have hf : n ≤ ⌊q⌋ := Int.le_floor.mpr h
  rcases pyRound_cases q with h1 | h1 <;> omega

theorem pyRound_le (n : ℤ) (q : ℚ) (h : q ≤ (n : ℚ)) : pyRound q ≤ n := by
  have hf : ⌊q⌋ ≤ n := by
    have := Int.floor_le_floor h
    simpa using this
  rcases lt_or_eq_of_le hf with hlt | heq
  · rcases pyRound_cases q with h1 | h1 <;> omega
  · have hq : q = (n : ℚ) := by
      have h1 : (n : ℚ) ≤ q := by
        rw [← heq]
        exact Int.floor_le q
      linarith
    rw [hq]
    unfold pyRound
    have h0 : ((n : ℚ) - ⌊(n : ℚ)⌋ : ℚ) = 0 := by
      rw [Int.floor_intCast]
      ring
    rw [if_pos (by rw [h0]; norm_num)]
    simp

theorem pyInt_intCast (n : ℤ) : pyInt ((n : ℤ) : ℚ) = n := by
  unfold pyInt
  split <;> simp

theorem pyRound_close (q : ℚ) : |(pyRound q : ℚ) - q| ≤ 1/2 := by
  have hfl : (⌊q⌋ : ℚ) ≤ q := Int.floor_le q
  have hfu : q < ⌊q⌋ + 1 := Int.lt_floor_add_one q
  rw [abs_le]
  unfold pyRound
  split
  · constructor <;> linarith
  · rename_i h1
    push_neg at h1
    split
    · constructor <;> push_cast <;> linarith
    · rename_i h2
      push_neg at h2
      split <;> constructor <;> push_cast <;> linarith

/-! Claim theorems. -/

/-- C1: for every message type, port and parameter payload (one that fits the
protocol limit), the first byte of the packet produced by
`Peripheral._write_to_hub` equals the total byte length of the packet, the
length byte itself included, namely `4 + len(params)`. -/
theorem C1_write_to_hub_length (port msg_type : Nat) (params : Bytes)
    (h : params.length + 4 ≤ 255) :
    (write_to_hub port msg_type params).head? =
      some ((write_to_hub port msg_type params).length) ∧
    (write_to_hub port msg_type params).length = 4 + params.length := by
  unfold write_to_hub int2byte
  constructor
  · simp only [List.length_append, List.length_cons, List.length_nil, List.cons_append,
      List.head?_cons, List.nil_append, Option.some.injEq]
    omega
  · simp only [List.length_append, List.length_cons, List.length_nil]
    omega

/-- Witness for C1 at a concrete packet. -/
theorem C1_write_to_hub_length_witness :
    ([0x11, 0x51, 0x00, 0x05] : Bytes).length + 4 ≤ 255 ∧
    ((write_to_hub 0x37 0x81 [0x11, 0x51, 0x00, 0x05]).head? =
      some ((write_to_hub 0x37 0x81 [0x11, 0x51, 0x00, 0x05]).length) ∧
    (write_to_hub 0x37 0x81 [0x11, 0x51, 0x00, 0x05]).length =
      4 + ([0x11, 0x51, 0x00, 0x05] : Bytes).length) :=
  ⟨by decide, C1_write_to_hub_length 0x37 0x81 [0x11, 0x51, 0x00, 0x05] (by decide)⟩

/-- C2: `EncodedMotor._speed_abs` raises InvalidArgument (the code's
ValueError) exactly when the relative speed is outside [-1, 1]; inside the
domain it returns `round(relative * 100)`, plus 255 when that rounded value is
negative, and the result is in [0, 255]. -/
theorem C2_speed_abs_spec (relative : ℚ) :
    (speed_abs relative = .error Err.invalidArgument ↔ relative < -1 ∨ relative > 1) ∧
    (-1 ≤ relative → relative ≤ 1 →
      speed_abs relative =
        .ok (if pyRound (relative * 100) < 0 then pyRound (relative * 100) + 255
             else pyRound (relative * 100)) ∧
      ∀ a : ℤ, speed_abs relative = .ok a → 0 ≤ a ∧ a ≤ 255) := by
  by_cases h : relative < -1 ∨ relative > 1
  · constructor
    · constructor
      · intro _
        exact h
      · intro _
        rw [speed_abs, if_pos h]
    · intro h1 h2
      rcases h with h | h
      · exact absurd h (not_lt.mpr h1)
      · exact absurd h (not_lt.mpr h2)
  · push_neg at h
    rw [speed_abs, if_neg (by push_neg; exact h)]
    have hub : pyRound (relative * 100) ≤ 100 := by
      apply pyRound_le
      push_cast
      nlinarith [h.2]
    have hlb : (-100 : ℤ) ≤ pyRound (relative * 100) := by
      apply le_pyRound
      push_cast
      nlinarith [h.1]
    refine ⟨⟨fun he => Except.noConfusion he, fun hc => absurd hc (by push_neg; exact h)⟩,
      fun _ _ => ⟨rfl, fun a ha => ?_⟩⟩
    have hval : (if pyRound (relative * 100) < 0 then pyRound (relative * 100) + 255
        else pyRound (relative * 100)) = a := by
      cases ha
      rfl
    split at hval <;> omega

/-- Witness for C2 at relative speed -1/2, whose encoded byte is 205. -/
theorem C2_speed_abs_spec_witness :
    (-1 : ℚ) ≤ -1/2 ∧ (-1/2 : ℚ) ≤ 1 ∧
    speed_abs (-1/2) =
      .ok (if pyRound ((-1/2 : ℚ) * 100) < 0 then pyRound ((-1/2 : ℚ) * 100) + 255
           else pyRound ((-1/2 : ℚ) * 100)) ∧
    speed_abs (-1/2) = .ok 205 :=
  ⟨by norm_num, by norm_num,
   ((C2_speed_abs_spec (-1/2)).2 (by norm_num) (by norm_num)).1,
   by unfold speed_abs pyRound; norm_num⟩

/-- C3 counterexample: the claim lists the duration bytes of the packet
produced by `timed(0.5, speed_primary=0.5, async=true)` on port A as
`0x01, 0xF4`; the code packs the 500 ms duration little-endian (struct format
`<H`), emitting `0xF4, 0x01`, so the produced packet differs from the claimed
byte sequence at offsets 6 and 7. -/
theorem C3_counterexample :
    timed PORT_A (1/2) (1/2) none true =
      .ok ([0x0C, PACKET_VER, MSG_SET_PORT_VAL, PORT_A,
            0x11, 0x09, 0xF4, 0x01, 0x32, 0x64, 0x7F, 0x03], false) ∧
    ([0x0C, PACKET_VER, MSG_SET_PORT_VAL, PORT_A,
      0x11, 0x09, 0xF4, 0x01, 0x32, 0x64, 0x7F, 0x03] : Bytes) ≠
      [0x0C, PACKET_VER, MSG_SET_PORT_VAL, PORT_A,
       0x11, 0x09, 0x01, 0xF4, 0x32, 0x64, 0x7F, 0x03] := by
  constructor
  · unfold timed pyInt pack_u16le wrap_and_write speed_abs pyRound
    norm_num [PORT_A, PORT_AB, Bind.bind, Except.bind, pure, Except.pure, TIMED_SINGLE,
      TIMED_GROUP, MOVEMENT_TYPE, TRAILER, int2byte, set_port_val, write_to_hub,
      MSG_SET_PORT_VAL, PACKET_VER, throw, throwThe, MonadExceptOf.throw]
    decide
  · decide

/-- C3 amended: `timed(0.5, speed_primary=0.5, async=true)` on port A writes
exactly one packet, `[len, version, MSG_SET_PORT_VAL, PORT_A, 0x11, 0x09,
0xF4, 0x01, 0x32, 0x64, 0x7F, 0x03]` (duration 500 little-endian), whose
length byte 0x0C equals the total byte count, and does not sleep. -/
theorem C3_timed_end_to_end :
    timed PORT_A (1/2) (1/2) none true =
      .ok ([0x0C, PACKET_VER, MSG_SET_PORT_VAL, PORT_A,
            0x11, 0x09, 0xF4, 0x01, 0x32, 0x64, 0x7F, 0x03], false) ∧
    ([0x0C, PACKET_VER, MSG_SET_PORT_VAL, PORT_A,
      0x11, 0x09, 0xF4, 0x01, 0x32, 0x64, 0x7F, 0x03] : Bytes).length = 0x0C := by
  constructor
  · unfold timed pyInt pack_u16le wrap_and_write speed_abs pyRound
    norm_num [PORT_A, PORT_AB, Bind.bind, Except.bind, pure, Except.pure, TIMED_SINGLE,
      TIMED_GROUP, MOVEMENT_TYPE, TRAILER, int2byte, set_port_val, write_to_hub,
      MSG_SET_PORT_VAL, PACKET_VER, throw, throwThe, MonadExceptOf.throw]
    decide
  · decide

/-- C4 counterexample: `timed(-1, ...)` raises struct.error from
`struct.pack('<H', -1000)`, not InvalidArgument (ValueError): the code never
checks for negative seconds. -/
theorem C4_counterexample :
    timed PORT_A (-1) 1 none true = .error Err.structError ∧
    Err.structError ≠ Err.invalidArgument := by
  have hm : pyInt ((-1 : ℚ) * 1000) = -1000 := by
    rw [show ((-1 : ℚ) * 1000) = ((-1000 : ℤ) : ℚ) by norm_num]
    exact pyInt_intCast _
  constructor
  · simp only [timed, hm]
    rw [if_neg (by omega), pack_u16le, if_pos (Or.inl (by omega))]
    rfl
  · decide

/-- C4 amended: `EncodedMotor.timed` fails before any wire write with
InvalidArgument whenever `int(seconds*1000) >= 65536`, and with a struct
packing error whenever `int(seconds*1000)` is negative (negative seconds in
(-0.001, 0) truncate to 0 and are not rejected at all). In the model an
erroring run returns no packet, so no write happens on failure. -/
theorem C4_timed_rejects (port : Nat) (seconds speed_primary : ℚ)
    (speed_secondary : Option ℚ) (async : Bool) :
    (65536 ≤ pyInt (seconds * 1000) →
      timed port seconds speed_primary speed_secondary async =
        .error Err.invalidArgument) ∧
    (pyInt (seconds * 1000) < 0 →
      timed port seconds speed_primary speed_secondary async =
        .error Err.structError) := by
  constructor
  · intro h
    simp only [timed]
    rw [if_pos h]
    rfl
  · intro h
    simp only [timed]
    rw [if_neg (by omega), pack_u16le, if_pos (Or.inl h)]
    rfl

/-- Witness for C4: seconds = 100 is rejected with InvalidArgument, seconds =
-1/2 fails with a struct error. -/
theorem C4_timed_rejects_witness :
    (65536 ≤ pyInt ((100 : ℚ) * 1000) ∧
      timed PORT_A 100 1 none true = .error Err.invalidArgument) ∧
    (pyInt ((-1/2 : ℚ) * 1000) < 0 ∧
      timed PORT_A (-1/2) 1 none true = .error Err.structError) :=
  ⟨⟨by unfold pyInt; norm_num,
    (C4_timed_rejects PORT_A 100 1 none true).1 (by unfold pyInt; norm_num)⟩,
   ⟨by rw [show ((-1/2 : ℚ) * 1000) = ((-500 : ℤ) : ℚ) by norm_num, pyInt_intCast]; norm_num,
    (C4_timed_rejects PORT_A (-1/2) 1 none true).2
      (by rw [show ((-1/2 : ℚ) * 1000) = ((-500 : ℤ) : ℚ) by norm_num, pyInt_intCast]
          norm_num)⟩⟩

/-- C5 counterexample: at seconds = 0.0015 the code truncates
(int(1.5) = 1) while the claim demands rounding (round(1.5) = 2): the emitted
duration field decodes to 1, not round(seconds*1000). -/
theorem C5_counterexample :
    timed PORT_A (3/2000) 1 none true =
      .ok ([0x0C, PACKET_VER, MSG_SET_PORT_VAL, PORT_A,
            0x11, 0x09, 0x01, 0x00, 0x64, 0x64, 0x7F, 0x03], false) ∧
    (decode_u16le [0x0C, PACKET_VER, MSG_SET_PORT_VAL, PORT_A,
            0x11, 0x09, 0x01, 0x00, 0x64, 0x64, 0x7F, 0x03] 6 : ℤ) = 1 ∧
    pyRound ((3/2000 : ℚ) * 1000) = 2 ∧
    (1 : ℤ) ≠ 2 := by
  refine ⟨?_, by decide, ?_, by decide⟩
  · unfold timed pyInt pack_u16le wrap_and_write speed_abs pyRound
    norm_num [PORT_A, PORT_AB, Bind.bind, Except.bind, pure, Except.pure, TIMED_SINGLE,
      TIMED_GROUP, MOVEMENT_TYPE, TRAILER, int2byte, set_port_val, write_to_hub,
      MSG_SET_PORT_VAL, PACKET_VER, throw, throwThe, MonadExceptOf.throw]
    decide
  · unfold pyRound
    norm_num

/-- C5 amended: for every seconds in [0, 65.535] the 2-byte little-endian
duration field of the timed motor payload decodes back to `int(seconds*1000)`
(truncation toward zero, not rounding), and seconds = 65.536 raises
InvalidArgument. -/
theorem C5_timed_duration (seconds : ℚ) (h0 : 0 ≤ seconds) (h1 : seconds ≤ 65535/1000) :
    (∃ pkt : Bytes, timed PORT_A seconds 1 none true = .ok (pkt, false) ∧
      (decode_u16le pkt 6 : ℤ) = pyInt (seconds * 1000)) ∧
    timed PORT_A (65536/1000) 1 none true = .error Err.invalidArgument := by
  have hsec : (0 : ℚ) ≤ seconds * 1000 := mul_nonneg h0 (by norm_num)
  have hneg : ¬ (seconds * 1000 < 0) := not_lt.mpr hsec
  have hpy : pyInt (seconds * 1000) = ⌊seconds * 1000⌋ := by
    unfold pyInt
    rw [if_neg hneg]
  have hm0 : 0 ≤ ⌊seconds * 1000⌋ := Int.floor_nonneg.mpr hsec
  have hm1 : ⌊seconds * 1000⌋ < 65536 := by
    rw [Int.floor_lt]
    push_cast
    linarith
  have hspeed : speed_abs 1 = .ok 100 := by
    unfold speed_abs pyRound
    norm_num
  constructor
  · refine ⟨[12, PACKET_VER, MSG_SET_PORT_VAL, PORT_A, 0x11, 0x09,
      ⌊seconds * 1000⌋.toNat % 256, ⌊seconds * 1000⌋.toNat / 256,
      0x64, 0x64, 0x7F, 0x03], ?_, ?_⟩
    · simp only [timed, hpy]
      rw [if_neg (by omega), pack_u16le, if_neg (by push_neg; omega)]
      simp only [wrap_and_write, hspeed, Bind.bind, Except.bind, pure, Except.pure]
      simp [set_port_val, write_to_hub, int2byte, MOVEMENT_TYPE, TRAILER, TIMED_SINGLE,
        TIMED_GROUP, MSG_SET_PORT_VAL, PACKET_VER, PORT_A, PORT_AB]
    · have hdec : decode_u16le [12, PACKET_VER, MSG_SET_PORT_VAL, PORT_A, 0x11, 0x09,
          ⌊seconds * 1000⌋.toNat % 256, ⌊seconds * 1000⌋.toNat / 256,
          0x64, 0x64, 0x7F, 0x03] 6 =
          ⌊seconds * 1000⌋.toNat % 256 + 256 * (⌊seconds * 1000⌋.toNat / 256) := rfl
      rw [hdec, hpy]
      have := Nat.mod_add_div ⌊seconds * 1000⌋.toNat 256
      omega
  · have hm : pyInt ((65536/1000 : ℚ) * 1000) = 65536 := by
      rw [show ((65536/1000 : ℚ) * 1000) = ((65536 : ℤ) : ℚ) by norm_num]
      exact pyInt_intCast _
    simp only [timed, hm]
    rw [if_pos (by omega)]
    rfl

/-- Witness for C5 at seconds = 1/2: the duration field decodes to 500. -/
theorem C5_timed_duration_witness :
    (0 : ℚ) ≤ 1/2 ∧ (1/2 : ℚ) ≤ 65535/1000 ∧
    ((∃ pkt : Bytes, timed PORT_A (1/2) 1 none true = .ok (pkt, false) ∧
      (decode_u16le pkt 6 : ℤ) = pyInt ((1/2 : ℚ) * 1000)) ∧
     timed PORT_A (65536/1000) 1 none true = .error Err.invalidArgument) :=
  ⟨by norm_num, by norm_num, C5_timed_duration (1/2) (by norm_num) (by norm_num)⟩

/-- A subscriber behaviour for the C6 analysis: subscriber 0 raises, every
other subscriber returns normally. -/
def raising_behaviour : Nat → List Int → Except Err Unit :=
  fun s _ => if s = 0 then .error Err.invalidArgument else .ok ()

/-- C6: delivery is NOT isolated. With subscriber set {0, 1} where subscriber 0
raises, `Peripheral._notify_subscribers` invokes only subscriber 0: the
exception propagates out of the `for` loop and subscriber 1 is never called,
contradicting the claim that a failing subscriber does not affect delivery to
the others. -/
theorem C6_notify_not_isolated :
    notify_subscribers raising_behaviour [0, 1] [7] = ([0], some Err.invalidArgument) ∧
    1 ∉ (notify_subscribers raising_behaviour [0, 1] [7]).1 := by
  constructor
  · rfl
  · intro h
    simp [notify_subscribers, raising_behaviour] at h

/-- C7: `TiltSensor.handle_notification` dispatches on the current mode:
BASIC notifies the raw byte at offset 4, FULL notifies the two signed-degree
decodes of the bytes at offsets 4 and 5 (v > 90 decodes to v - 256, else v),
2AXIS notifies the raw byte at offset 4, and OFF notifies nobody. -/
theorem C7_handle_notification_dispatch (st : TiltSensorState) (data : Bytes) :
    (st.mode = TiltMode.basic →
      handle_notification st data = some [(get_byte data 4 : ℤ)]) ∧
    (st.mode = TiltMode.full →
      handle_notification st data =
        some [if get_byte data 4 > 90 then (get_byte data 4 : ℤ) - 256
              else (get_byte data 4 : ℤ),
              if get_byte data 5 > 90 then (get_byte data 5 : ℤ) - 256
              else (get_byte data 5 : ℤ)]) ∧
    (st.mode = TiltMode.twoaxis →
      handle_notification st data = some [(get_byte data 4 : ℤ)]) ∧
    (st.mode = TiltMode.off → handle_notification st data = none) := by
  refine ⟨fun h => ?_, fun h => ?_, fun h => ?_, fun h => ?_⟩ <;>
    simp [handle_notification, h, byte2deg]

/-- Witness for C7: a FULL-mode sensor decodes buffer bytes 95 and 10 at
offsets 4 and 5 into the degrees -161 and 10. -/
theorem C7_handle_notification_dispatch_witness :
    (⟨TiltMode.full, []⟩ : TiltSensorState).mode = TiltMode.full ∧
    handle_notification ⟨TiltMode.full, []⟩ [0, 0, 0, 0, 95, 10] =
      some [if get_byte [0, 0, 0, 0, 95, 10] 4 > 90
            then (get_byte [0, 0, 0, 0, 95, 10] 4 : ℤ) - 256
            else (get_byte [0, 0, 0, 0, 95, 10] 4 : ℤ),
            if get_byte [0, 0, 0, 0, 95, 10] 5 > 90
            then (get_byte [0, 0, 0, 0, 95, 10] 5 : ℤ) - 256
            else (get_byte [0, 0, 0, 0, 95, 10] 5 : ℤ)] :=
  ⟨rfl, (C7_handle_notification_dispatch ⟨TiltMode.full, []⟩ [0, 0, 0, 0, 95, 10]).2.1 rfl⟩

/-- C8: `TiltSensor.unsubscribe` removes the callback from the subscriber set,
fails with NotSubscribed (the KeyError of `set.remove`) when it is not
registered, and exactly when the set becomes empty switches the mode to OFF,
emitting the corresponding mode-switch wire command; a freshly constructed
TiltSensor is already in mode OFF. -/
theorem C8_unsubscribe_spec (port : Nat) (st : TiltSensorState) (callback : Nat)
    (hnd : st.subscribers.Nodup) :
    (callback ∉ st.subscribers →
      unsubscribe port st callback = .error Err.notSubscribed) ∧
    (callback ∈ st.subscribers →
      (st.subscribers.erase callback = [] →
        unsubscribe port st callback =
          .ok (⟨TiltMode.off, []⟩,
            [subscribe_on_port port
              (int2byte (modeByte TiltMode.off) ++ [0x01, 0x00, 0x00, 0x00, 0x01])])) ∧
      (st.subscribers.erase callback ≠ [] →
        unsubscribe port st callback =
          .ok (⟨st.mode, st.subscribers.erase callback⟩, []) ∧
        st.mode = ({ st with subscribers := st.subscribers.erase callback} :
          TiltSensorState).mode) ∧
      callback ∉ st.subscribers.erase callback) ∧
    tiltSensorInit.mode = TiltMode.off := by
  refine ⟨fun h => ?_, fun h => ⟨fun he => ?_, fun hne => ⟨?_, rfl⟩, ?_⟩, rfl⟩
  · unfold unsubscribe
    rw [if_neg h]
  · unfold unsubscribe switch_mode
    rw [if_pos h]
    simp only [he]
    rfl
  · unfold unsubscribe
    rw [if_pos h]
    simp only [if_neg hne]
  · exact (List.Nodup.mem_erase_iff hnd).mp.mt (by simp)

/-- Witness for C8: removing the only subscriber 5 empties the set and
switches the mode to OFF with the corresponding wire command; removing an
unknown callback fails with NotSubscribed. -/
theorem C8_unsubscribe_spec_witness :
    (([5] : List Nat).Nodup ∧
      unsubscribe 1 ⟨TiltMode.basic, [5]⟩ 5 =
        .ok (⟨TiltMode.off, []⟩,
          [subscribe_on_port 1
            (int2byte (modeByte TiltMode.off) ++ [0x01, 0x00, 0x00, 0x00, 0x01])])) ∧
    unsubscribe 1 ⟨TiltMode.basic, [5]⟩ 7 = .error Err.notSubscribed :=
  ⟨⟨by decide,
    ((C8_unsubscribe_spec 1 ⟨TiltMode.basic, [5]⟩ 5 (by decide)).2.1 (by decide)).1 (by decide)⟩,
   (C8_unsubscribe_spec 1 ⟨TiltMode.basic, [5]⟩ 7 (by decide)).1 (by decide)⟩

/-- C9 counterexample: at relative speed -0.006 the encoder emits byte 254
(round(-0.6) = -1, wrapped by +255 instead of +256), which signed-decodes to
-0.02: the round trip misses -0.006 by 0.014, more than the claimed 1/100. -/
theorem C9_counterexample :
    speed_abs (-3/500) = .ok 254 ∧
    ¬ |decodeSpeed 254 - (-3/500 : ℚ)| ≤ 1/100 := by
  constructor
  · unfold speed_abs pyRound
    norm_num
  · have hd : decodeSpeed 254 - (-3/500 : ℚ) = -7/500 := by
      unfold decodeSpeed
      norm_num
    rw [hd, abs_of_neg (by norm_num)]
    norm_num

/-- C9 amended: for every relative speed in [-1, 1] the encoder succeeds with
a byte in [0, 255] whose signed-byte decode divided by 100 is within 3/200 of
the input (the +255 wrap shifts every negative level by one hundredth, so the
1/100 quantization bound becomes 3/200), and the encoder raises
InvalidArgument outside [-1, 1]. -/
theorem C9_speed_roundtrip (relative : ℚ) (h0 : -1 ≤ relative) (h1 : relative ≤ 1) :
    (∃ a : ℤ, speed_abs relative = .ok a ∧ 0 ≤ a ∧ a ≤ 255 ∧
      |decodeSpeed a.toNat - relative| ≤ 3/200) ∧
    (∀ r : ℚ, r < -1 ∨ r > 1 → speed_abs r = .error Err.invalidArgument) := by
  refine ⟨?_, fun r hr => by rw [speed_abs, if_pos hr]⟩
  have hclose := pyRound_close (relative * 100)
  rw [abs_le] at hclose
  have hub : pyRound (relative * 100) ≤ 100 := by
    apply pyRound_le
    push_cast
    nlinarith
  have hlb : (-100 : ℤ) ≤ pyRound (relative * 100) := by
    apply le_pyRound
    push_cast
    nlinarith
  have henc : speed_abs relative =
      .ok (if pyRound (relative * 100) < 0 then pyRound (relative * 100) + 255
           else pyRound (relative * 100)) := by
    rw [speed_abs, if_neg (by push_neg; exact ⟨h0, h1⟩)]
  set a0 := pyRound (relative * 100) with ha0
  by_cases hneg : a0 < 0
  · refine ⟨a0 + 255, by rw [henc, if_pos hneg], by omega, by omega, ?_⟩
    have htn : ((a0 + 255).toNat : ℤ) = a0 + 255 := Int.toNat_of_nonneg (by omega)
    rw [decodeSpeed, if_pos (by omega), htn, abs_le]
    constructor
    · have : ((a0 : ℚ) + 255 - 256) / 100 - relative =
          ((a0 : ℚ) - relative * 100 - 1) / 100 := by ring
      push_cast
      rw [this]
      linarith [hclose.1]
    · have : ((a0 : ℚ) + 255 - 256) / 100 - relative =
          ((a0 : ℚ) - relative * 100 - 1) / 100 := by ring
      push_cast
      rw [this]
      linarith [hclose.2]
  · refine ⟨a0, by rw [henc, if_neg hneg], by omega, by omega, ?_⟩
    have htn : (a0.toNat : ℤ) = a0 := Int.toNat_of_nonneg (by omega)
    rw [decodeSpeed, if_neg (by omega), htn, abs_le]
    constructor
    · have : (a0 : ℚ) / 100 - relative = ((a0 : ℚ) - relative * 100) / 100 := by ring
      rw [this]
      linarith [hclose.1]
    · have : (a0 : ℚ) / 100 - relative = ((a0 : ℚ) - relative * 100) / 100 := by ring
      rw [this]
      linarith [hclose.2]

/-- Witness for C9 at relative speed 1/4, encoded as byte 25. -/
theorem C9_speed_roundtrip_witness :
    (-1 : ℚ) ≤ 1/4 ∧ (1/4 : ℚ) ≤ 1 ∧
    ((∃ a : ℤ, speed_abs (1/4) = .ok a ∧ 0 ≤ a ∧ a ≤ 255 ∧
      |decodeSpeed a.toNat - (1/4 : ℚ)| ≤ 3/200) ∧
    (∀ r : ℚ, r < -1 ∨ r > 1 → speed_abs r = .error Err.invalidArgument)) :=
  ⟨by norm_num, by norm_num, C9_speed_roundtrip (1/4) (by norm_num) (by norm_num)⟩

/-- On a port other than the combined port AB, `_wrap_and_write` never looks
at the secondary speed: it maps the primary speed byte straight into the
packet. -/
theorem wrap_and_write_single (port : Nat) (h : port ≠ PORT_AB) (command : Bytes)
    (sp ss : ℚ) :
    wrap_and_write port command sp ss =
      (speed_abs sp).map (fun a =>
        set_port_val port ((MOVEMENT_TYPE ++ command ++ int2byte a.toNat) ++ TRAILER)) := by
  unfold wrap_and_write
  cases hs : speed_abs sp <;>
    simp [hs, h, Bind.bind, Except.bind, pure, Except.pure, Except.map]

/-- C10: on every port other than the combined port AB, timed and angled
commands never validate the secondary speed: the result is the same for any
two secondary speeds (in particular an out-of-range one raises no error and
yields the same packet as a valid one), and a successful timed packet has the
12 bytes of a single-speed-byte command. -/
theorem C10_single_port_secondary_ignored (port : Nat) (hport : port ≠ PORT_AB)
    (seconds : ℚ) (angle : ℤ) (sp : ℚ) (ss1 ss2 : Option ℚ) (async : Bool) :
    timed port seconds sp ss1 async = timed port seconds sp ss2 async ∧
    angled port angle sp ss1 = angled port angle sp ss2 ∧
    (∀ pkt : Bytes, ∀ b : Bool,
      timed port seconds sp ss1 async = .ok (pkt, b) → pkt.length = 12) := by
  refine ⟨?_, ?_, ?_⟩
  · simp only [timed, wrap_and_write_single port hport]
  · simp only [angled, wrap_and_write_single port hport]
  · intro pkt b h
    simp only [timed, wrap_and_write_single port hport] at h
    rw [if_neg hport] at h
    split at h
    · exact absurd h (by simp [throw, throwThe, MonadExceptOf.throw, Bind.bind, Except.bind,
        pure, Except.pure])
    · rw [pack_u16le] at h
      split at h
      · exact absurd h (by simp [Bind.bind, Except.bind, pure, Except.pure])
      · cases hs : speed_abs sp
        · simp [hs, Bind.bind, Except.bind, Except.map, pure, Except.pure] at h
        · simp only [hs, Bind.bind, Except.bind, Except.map, pure, Except.pure,
            Except.ok.injEq, Prod.mk.injEq] at h
          obtain ⟨h1, h2⟩ := h
          rw [← h1]
          simp [set_port_val, write_to_hub, int2byte, MOVEMENT_TYPE, TRAILER, TIMED_SINGLE]

/-- Witness for C10: on port A an out-of-range secondary speed 5 produces the
same result as the valid secondary speed 1/2, for both timed and angled. -/
theorem C10_single_port_secondary_ignored_witness :
    timed PORT_A 1 1 (some 5) true = timed PORT_A 1 1 (some (1/2)) true ∧
    angled PORT_A 90 1 (some 5) = angled PORT_A 90 1 (some (1/2)) :=
  ⟨(C10_single_port_secondary_ignored PORT_A (by decide) 1 90 1 (some 5) (some (1/2)) true).1,
   (C10_single_port_secondary_ignored PORT_A (by decide) 1 90 1 (some 5) (some (1/2)) true).2.1⟩

end Pylgbst
